import Mathlib

/-!
Shallow embedding of the resource query and execution layer of the
cloud-custodian repository (files `c7n/query.py`, `c7n/tags.py`,
`c7n/resources/rdscluster.py`), together with theorems settling the
frozen claims about that layer.

Conventions used throughout:

- Python dicts are modelled as association lists (`List (String × _)`);
  `dict.update` is modelled by `dictUpdate`, whose lookup semantics match
  Python (the updating mapping wins on key collision).
- Python exceptions are modelled with `Except`: a raised exception is an
  `.error` value that propagates, a normal return is `.ok`.
- Network calls are abstracted as explicit function arguments (the
  provider client is a function from call parameters to a response);
  where a claim counts calls or sleeps, the embedding returns the list of
  dispatched parameter sets or an explicit counter alongside the result.
- Machine integers do not occur: Python ints are unbounded, so `ℕ`, `ℤ`
  and `ℚ` are exact models.
-/

/-! ## Resource-limit circuit breaker (`QueryResourceManager.check_resource_limit`) -/

/-- Model of the policy attributes read by `check_resource_limit`
(`c7n/query.py` lines 428-447): the policy name and the two optional
limits.  `max_resources = none` models a policy without the key (Python
`None`, rejected by the `isinstance(p.max_resources, int)` test);
`max_resources_percent = none` models Python `None`.  Percent values are
numeric in Python (int or float); we model them exactly with `ℚ`. -/
structure CPolicy where
  name : String
  max_resources : Option ℤ
  max_resources_percent : Option ℚ
deriving DecidableEq

/-- Model of the `ResourceLimitExceeded` exception payload as raised by
`check_resource_limit`: the policy name (interpolated into the message
template), the limit kind, the configured limit, and both counts.  The
exception class lives in `c7n/exceptions.py` (not under `src/`); its
carried fields are taken from the raise sites in `c7n/query.py`. -/
structure ResourceLimitExceeded where
  policy_name : String
  kind : String
  limit : ℚ
  selection_count : ℕ
  population_count : ℕ
deriving DecidableEq

/-- Model of the `elif p.max_resources_percent:` arm of
`check_resource_limit`.  Python truthiness: `None`, `0` and `0.0` are all
falsy, so a configured percent of `0` skips the whole arm. -/
def check_percent_limit (p : CPolicy) (selection_count population_count : ℕ) :
    Except ResourceLimitExceeded Bool :=
  match p.max_resources_percent with
  | some q =>
      if q = 0 then .ok true
      else if (population_count : ℚ) * (q / 100) < (selection_count : ℚ) then
        .error ⟨p.name, "max-percent", q, selection_count, population_count⟩
      else .ok true
  | none => .ok true

/-- Model of `QueryResourceManager.check_resource_limit`
(`c7n/query.py` lines 428-447).  The absolute check fires when
`max_resources` is an int and `selection_count` exceeds it; otherwise the
percent arm (`check_percent_limit`) runs; when nothing fires the method
returns `True`. -/
def check_resource_limit (p : CPolicy) (selection_count population_count : ℕ) :
    Except ResourceLimitExceeded Bool :=
  match p.max_resources with
  | some l =>
      if (selection_count : ℤ) > l then
        .error ⟨p.name, "max-resources", (l : ℚ), selection_count, population_count⟩
      else check_percent_limit p selection_count population_count
  | none => check_percent_limit p selection_count population_count

/-! ## Universal bulk tagging retry (`universal_retry`, `c7n/tags.py` lines 917-955) -/

/-- Model of a resource-group tagging API response: the per-item failure
map `FailedResourcesMap` (arn to error code, the only key `universal_retry`
inspects) plus the rest of the response body, carried opaquely so that
distinct responses are distinguishable. -/
structure TagResponse where
  failedResourcesMap : List (String × String)
  payload : List (String × String) := []
deriving DecidableEq

/-- Outcome of `universal_retry`: a returned response, the aggregate
"Resource Tag Errors" exception carrying the non-throttling item
failures, or the aggregate "Resource Tag Throttled" exception carrying
the still-failing arns. -/
inductive URResult where
  | ok (r : TagResponse)
  | tagErrors (errors : List (String × String))
  | throttled (arns : List String)
deriving DecidableEq

/-- Arns of the failure-map items whose error code is the throttling
code (the `throttles` set built inside the loop). -/
def throttlesOf (failures : List (String × String)) : List String :=
  (failures.filter (fun f => f.2 == "ThrottlingException")).map Prod.fst

/-- Failure-map items whose error code is not the throttling code (the
`errors` dict built inside the loop). -/
def errorsOf (failures : List (String × String)) : List (String × String) :=
  failures.filter (fun f => !(f.2 == "ThrottlingException"))

/-- Attempt ceiling of `universal_retry` (`max_attempts = 6`). -/
def universal_retry_max_attempts : ℕ := 6

/-- Loop body of `universal_retry`.  `method` abstracts the tagging API
call, indexed by the attempt number so distinct attempts can return
distinct responses; `fuel` only bounds the recursion (the source loop
iterates a backoff-delay generator of at least `max_attempts` entries, so
the `idx == max_attempts - 1` raise always fires before the generator is
exhausted and the `fuel = 0` branch is unreachable from
`universal_retry`).  The returned triple is (outcome, number of calls
made, number of sleeps performed); the delay durations themselves
(`utils.backoff_delays`, jittered) are irrelevant to the claims and are
not modelled. -/
def universal_retry_aux (method : ℕ → List String → TagResponse) :
    ℕ → ℕ → List String → ℕ → ℕ → URResult × ℕ × ℕ
  | 0, _, arns, calls, sleeps => (.throttled arns, calls, sleeps)
  | fuel + 1, idx, arns, calls, sleeps =>
    let response := method idx arns
    let failures := response.failedResourcesMap
    if failures = [] then (.ok response, calls + 1, sleeps)
    else
      if errorsOf failures ≠ [] then (.tagErrors (errorsOf failures), calls + 1, sleeps)
      else if idx = universal_retry_max_attempts - 1 then
        (.throttled (throttlesOf failures), calls + 1, sleeps)
      else universal_retry_aux method fuel (idx + 1) (throttlesOf failures)
        (calls + 1) (sleeps + 1)

/-- Model of `universal_retry` (`c7n/tags.py`): issue the call; an empty
failure map returns the response; any non-throttling item failure raises
the aggregate error immediately; at the attempt ceiling the aggregate
throttling error is raised; otherwise sleep once and reissue the call
with only the still-throttled arns. -/
def universal_retry (method : ℕ → List String → TagResponse)
    (arns : List String) : URResult × ℕ × ℕ :=
  universal_retry_aux method universal_retry_max_attempts 0 arns 0 0

/-- The shrinking work list of `universal_retry`: arn list passed to
attempt `k`, assuming every earlier attempt failed with throttling only. -/
def throttleChain (method : ℕ → List String → TagResponse)
    (arns : List String) : ℕ → List String
  | 0 => arns
  | k + 1 => throttlesOf (method k (throttleChain method arns k)).failedResourcesMap

/-- Fixture for the C3 witness: a call that always succeeds outright. -/
def urMethodOk : ℕ → List String → TagResponse :=
  fun _ _ => ⟨[], [("TagResources", "ok")]⟩

/-- Fixture for the C3 witness: first attempt throttles exactly `arnA`,
every later attempt succeeds. -/
def urMethodThrottleOnce : ℕ → List String → TagResponse :=
  fun i _ =>
    if i = 0 then ⟨[("arnA", "ThrottlingException")], []⟩
    else ⟨[], [("TagResources", "ok")]⟩

/-- Fixture for the C3 witness: a call that always fails one item with a
non-throttling error code. -/
def urMethodErrors : ℕ → List String → TagResponse :=
  fun _ _ => ⟨[("arnB", "AccessDenied")], []⟩

/-- Fixture for the C3 witness: a call that throttles the same arn on
every attempt. -/
def urMethodAlwaysThrottle : ℕ → List String → TagResponse :=
  fun _ _ => ⟨[("arnC", "ThrottlingException")], []⟩

/-! ## Resource query (`ResourceQuery.filter` and `ResourceQuery.get`, `c7n/query.py` lines 48-116) -/

/-- Value of an enumeration call parameter: a single identity string or
a list of identities (the two shapes `ResourceQuery.get` produces for
scalar and list server-side filters). -/
inductive ParamVal where
  | str (s : String)
  | strList (l : List String)
deriving DecidableEq

/-- Call parameters, modelling a Python keyword-argument dict. -/
abbrev Params := List (String × ParamVal)

/-- Model of Python `params.update(extra_args)`: the resulting mapping
answers lookups from `extra` first and falls back to `params` for keys
absent from `extra` — dict update semantics, where the updating dict wins
on key collision. -/
def dictUpdate (params extra : Params) : Params :=
  params.filter (fun p => !((extra.map Prod.fst).contains p.1)) ++ extra

/-- An enumerated result: either a plain identifier string or a
structured record (the duck-typed "string vs. structured" distinction the
client-side filter of `ResourceQuery.get` makes per result). -/
inductive RQRec where
  | rawId (s : String)
  | record (fields : List (String × String))
deriving DecidableEq

/-- Descriptor parent link (`parent_spec`): parent resource kind,
correlation key, and whether children are annotated with the parent id. -/
structure ParentSpec where
  parent_type : String
  parent_key : String
  annotate_parent : Bool
deriving DecidableEq

/-- Model of the resource-type descriptor fields consumed by
`ResourceQuery` and `ChildResourceQuery`: the `enum_spec` triple is
split into its operation name, result path and static extra args (the
operation and path are absorbed by the abstract client function), plus
`filter_name`, `filter_type`, the identity field `id`, and the
`parent_spec` used by child queries. -/
structure MDescr where
  service : String := ""
  enum_op : String := ""
  enum_path : String := ""
  enum_extra_args : Params := []
  filter_name : Option String := none
  filter_type : String := ""
  id : String := ""
  parent_spec : ParentSpec := ⟨"", "", false⟩
deriving DecidableEq

/-- Model of `ResourceQuery.filter` (`c7n/query.py` lines 78-88).
`client` abstracts `_invoke_client_enum` (client resolution, pagination
and path projection).  If the descriptor declares truthy `extra_args`,
`params.update(extra_args)` runs before dispatch.  The first component of
the result is the parameter dict actually dispatched to the enumeration
call (instrumentation used by the claims about dispatched parameters). -/
def ResourceQuery_filter (m : MDescr) (client : Params → List RQRec)
    (params : Params) : Params × List RQRec :=
  let ps := if m.enum_extra_args = [] then params
            else dictUpdate params m.enum_extra_args
  (ps, client ps)

/-- Errors of the `ResourceQuery.get` path: a failed
`assert len(identities) == 1` for a scalar server-side filter, a Python
`TypeError` (indexing a plain string with a field name), and a `KeyError`
(record without the identity field). -/
inductive GetErr where
  | assertFail
  | typeError
  | keyError
deriving DecidableEq

/-- Model of `r[k]` on an enumerated result in the client-side filtering
path: indexing a plain string with a string raises `TypeError`; a record
without key `k` raises `KeyError`. -/
def getIdField (r : RQRec) (k : String) : Except GetErr String :=
  match r with
  | .rawId _ => .error .typeError
  | .record fs =>
      match fs.lookup k with
      | some v => .ok v
      | none => .error .keyError

/-- Model of the comprehension `[r for r in resources if r[m.id] in identities]`:
keeps records whose identity field lies in the identity set, propagating
the first indexing error. -/
def filterById (k : String) (identities : List String) :
    List RQRec → Except GetErr (List RQRec)
  | [] => .ok []
  | r :: rs =>
      match getIdField r k with
      | .error e => .error e
      | .ok v =>
          match filterById k identities rs with
          | .error e => .error e
          | .ok rest => .ok (if identities.contains v then r :: rest else rest)

/-- Membership guarantee of the client-side filtering path of
`ResourceQuery.get`: a plain identifier string is itself in the identity
set; a structured record carries an identity-field value from the
identity set. -/
def memberOfIdentities (identities : List String) (mid : String) : RQRec → Prop
  | .rawId s => s ∈ identities
  | .record fs => ∃ v, fs.lookup mid = some v ∧ v ∈ identities

/-- Predicate of `all(map(lambda r: isinstance(r, six.string_types), resources))`. -/
def isRawStr : RQRec → Bool
  | .rawId _ => true
  | .record _ => false

/-- Model of `ResourceQuery.get` (`c7n/query.py` lines 90-116).  With a
server-side filter name the identities are passed as a call parameter
(list filters take them all at once; scalar filters assert exactly one);
without one the full enumeration is filtered client-side, by string
containment when every result is a plain identifier string and by
identity-field equality otherwise.  The first component lists the
parameter dicts of the enumeration calls actually dispatched. -/
def ResourceQuery_get (m : MDescr) (client : Params → List RQRec)
    (identities : List String) : List Params × Except GetErr (List RQRec) :=
  match m.filter_name with
  | some fn =>
      if m.filter_type = "list" then
        let pr := ResourceQuery_filter m client [(fn, .strList identities)]
        ([pr.1], .ok pr.2)
      else if m.filter_type = "scalar" then
        if identities.length = 1 then
          let pr := ResourceQuery_filter m client
            [(fn, .str (identities.headD ""))]
          ([pr.1], .ok pr.2)
        else ([], .error .assertFail)
      else
        let pr := ResourceQuery_filter m client []
        ([pr.1], .ok pr.2)
  | none =>
      let pr := ResourceQuery_filter m client []
      if pr.2.all isRawStr then
        ([pr.1], .ok (pr.2.filter (fun r =>
          match r with
          | .rawId s => identities.contains s
          | .record _ => false)))
      else ([pr.1], filterById m.id identities pr.2)

/-- Fixture for the C7 counterexample: a descriptor whose static extra
args set key "K" to "descr". -/
def mC7 : MDescr := { enum_extra_args := [("K", .str "descr")], id := "Id" }

/-- Fixture client returning no results. -/
def emptyClient : Params → List RQRec := fun _ => []

/-- Fixture for the C4 witness: descriptor with no server-side filter. -/
def mC4 : MDescr := { id := "Id" }

/-- Fixture for the C4 witness: enumeration returning two structured
records, only one of which carries an identity in the requested set. -/
def clientC4 : Params → List RQRec :=
  fun _ => [.record [("Id", "a")], .record [("Id", "zz")]]

/-- Fixture for the C9 witness: descriptor with a scalar server-side
filter named "F". -/
def mC9s : MDescr := { filter_name := some "F", filter_type := "scalar", id := "Id" }

/-- Fixture for the C9 witness: descriptor with a list server-side
filter named "F". -/
def mC9l : MDescr := { filter_name := some "F", filter_type := "list", id := "Id" }

/-! ## Child resource query (`ChildResourceQuery.filter`, `c7n/query.py` lines 119-172) -/

/-- A structured resource record (field name to value), as enumerated by
the child query and handled by the resource manager. -/
abbrev CRec := List (String × String)

/-- Model of `r[k] = v` on a record: replace the binding of `k` when
present, append it otherwise (dict item assignment). -/
def setAssoc (fs : CRec) (k v : String) : CRec :=
  if (fs.lookup k).isSome then
    fs.map (fun p => if p.1 = k then (k, v) else p)
  else fs ++ [(k, v)]

/-- A child query result item: a bare record, or a (parent id, record)
pair when `capture_parent_id` is set. -/
inductive ChildItem where
  | record (r : CRec)
  | pairItem (parentId : String) (r : CRec)
deriving DecidableEq

/-- The reserved parent-correlation annotation key
(`ChildResourceQuery.parent_key`, the class attribute "c7n:parent-id"). -/
def child_annotation_key : String := "c7n:parent-id"

/-- Model of `ChildResourceQuery.get_parent_parameters`:
`dict(params, **{parent_key: parent_id})` — a copy of `params` with the
parent key bound (the keyword argument wins on collision). -/
def get_parent_parameters (params : Params) (parent_id parent_key : String) :
    Params :=
  dictUpdate params [(parent_key, ParamVal.str parent_id)]

/-- Model of `ChildResourceQuery.filter` (`c7n/query.py` lines 134-169).
`client` abstracts `_invoke_client_enum`; `parent_ids` abstracts the
identities obtained from the parent resource manager
(`[p[id] for p in parents.resources()]`).  Descriptor extra args are
merged first; if the merged params already carry the parent correlation
key, a single direct enumeration runs; with no parent ids the query
bails out with no call; otherwise one enumeration call per parent id is
issued, children are optionally annotated with the parent id under the
reserved key, and non-empty per-parent subsets are returned as
(parent id, record) pairs when `capture_parent_id` is set.  The first
component lists the parameter dicts of the dispatched enumeration
calls. -/
def ChildResourceQuery_filter (m : MDescr) (capture_parent_id : Bool)
    (client : Params → List CRec) (parent_ids : List String)
    (params : Params) : List Params × List ChildItem :=
  let params := if m.enum_extra_args = [] then params
                else dictUpdate params m.enum_extra_args
  let pk := m.parent_spec.parent_key
  let existing_param := (params.lookup pk).isSome
  if existing_param = false ∧ parent_ids.length = 0 then ([], [])
  else if existing_param then ([params], (client params).map ChildItem.record)
  else
    parent_ids.foldl
      (fun acc parent_id =>
        let merged := get_parent_parameters params parent_id pk
        let subset := client merged
        let subset := if m.parent_spec.annotate_parent then
            subset.map (fun r => setAssoc r child_annotation_key parent_id)
          else subset
        let items : List ChildItem :=
          if subset ≠ [] ∧ capture_parent_id = true then
            subset.map (ChildItem.pairItem parent_id)
          else subset.map ChildItem.record
        (acc.1 ++ [merged], acc.2 ++ items))
      ([], [])

/-- Fixture for the C8 witness: a child descriptor whose parent spec
correlates on "ParentId" with annotation enabled. -/
def mC8 : MDescr := { id := "Id", parent_spec := ⟨"parent-kind", "ParentId", true⟩ }

/-- Fixture client for records, returning no results. -/
def emptyCRecClient : Params → List CRec := fun _ => []

/-! ## Resource manager (`QueryResourceManager.resources`, `c7n/query.py` lines 398-426) -/

/-- Observable steps of one `QueryResourceManager.resources` run, in
program order: the source enumeration (`self.source.resources(query)`),
the augmentation of the whole collection (`self.augment(resources)`),
the cache write (`self._cache.save(cache_key, resources)`, carrying the
saved collection), and the filter evaluation
(`self.filter_resources(resources)`). -/
inductive MEvent where
  | sourceFetch (q : Params)
  | augmentAll
  | cacheSave (v : List CRec)
  | filterEval
deriving DecidableEq

/-- Environment of one `QueryResourceManager.resources` run:
`cacheLoaded` models `self._cache.load()`, `cacheGet` the cached value
under this run's cache key, `sourceFn` the selected source strategy's
`resources()` (enumeration including its internal behavior), `augmentFn`
the augmentation of a whole collection, `filterFn` the external filter
evaluation, `isPolicyResource` the `self.data == self.ctx.policy.data`
test, and `policy` the owning policy's limits. -/
structure MgrEnv where
  cacheLoaded : Bool
  cacheGet : Option (List CRec)
  sourceFn : Params → List CRec
  augmentFn : List CRec → List CRec
  filterFn : List CRec → List CRec
  isPolicyResource : Bool
  policy : CPolicy

/-- Result of one `QueryResourceManager.resources` run: the returned
selection (or the resource-limit error), the trace of observable events
in program order, and the `resource_count` (population) captured before
filtering. -/
structure RunOut where
  result : Except ResourceLimitExceeded (List CRec)
  events : List MEvent
  population : ℕ

/-- Tail of `QueryResourceManager.resources` after the collection is in
hand: capture `resource_count`, filter, and run the circuit breaker when
this is the top-level policy query. -/
def QRM_finish (env : MgrEnv) (rs : List CRec) (evs : List MEvent) : RunOut :=
  let population := rs.length
  let selection := env.filterFn rs
  let events := evs ++ [MEvent.filterEval]
  let result : Except ResourceLimitExceeded (List CRec) :=
    if env.isPolicyResource then
      match check_resource_limit env.policy selection.length population with
      | .ok _ => .ok selection
      | .error e => .error e
    else .ok selection
  ⟨result, events, population⟩

/-- Model of `QueryResourceManager.resources` (`c7n/query.py` lines
398-426): on a cache hit the cached collection is used directly; on a
miss the source is enumerated, the whole collection augmented, and the
result saved to the cache; either way the collection is then counted,
filtered, and checked against the resource limits. -/
def QRM_resources (env : MgrEnv) (query : Option Params) : RunOut :=
  let cached := if env.cacheLoaded then env.cacheGet else none
  match cached with
  | some rs => QRM_finish env rs []
  | none =>
      let q := query.getD []
      let enumerated := env.sourceFn q
      let augmented := env.augmentFn enumerated
      QRM_finish env augmented
        [MEvent.sourceFetch q, MEvent.augmentAll, MEvent.cacheSave augmented]

/-- Fixture environment for the C2 witness: empty cache. -/
def envMiss : MgrEnv :=
  { cacheLoaded := true, cacheGet := none,
    sourceFn := fun _ => [[("Id", "a")], [("Id", "b")]],
    augmentFn := fun rs => rs.map (fun r => r ++ [("Tags", "t")]),
    filterFn := fun rs => rs.take 1,
    isPolicyResource := false, policy := ⟨"p", none, none⟩ }

/-- Fixture environment for the C2 witness: cache holding two records. -/
def envHit : MgrEnv :=
  { envMiss with cacheGet := some [[("Id", "a")], [("Id", "b")]] }

/-! ## Config-snapshot source (`ConfigSource.resources`, `c7n/query.py` lines 306-332) -/

/-- Fuel-indexed chunking worker; the fuel is the list length, and every
recursion consumes at least one element, so the fuel-exhausted branch is
unreachable from `chunksOf`. -/
def chunksOfFuel {α : Type} (n : ℕ) : ℕ → List α → List (List α)
  | _, [] => []
  | 0, l => [l]
  | fuel + 1, x :: xs => (x :: xs.take (n - 1)) :: chunksOfFuel n fuel (xs.drop (n - 1))

/-- Modelled from the spec: `c7n.utils.chunks` (the file `c7n/utils.py`
is not under `src/`) — splits a sequence into consecutive chunks of at
most `n` elements, per the spec wording "fans out concurrently over
chunks of up to 50 identities".  Meaningful for `n ≥ 1`; the source
always calls it with 50. -/
def chunksOf {α : Type} (n : ℕ) (l : List α) : List (List α) :=
  chunksOfFuel n l.length l

/-- Model of the chunk loop of `ConfigSource.resources`: for each chunk
one future is submitted and immediately awaited (the `futures` list is
rebuilt inside the loop, one future per iteration, so execution is
effectively sequential).  A failed future is logged
(`self.manager.log.error(...)`) and then `f.result()` is still called
unconditionally, which re-raises the exception and aborts the whole
loop — modelled by the propagating `.error`. -/
def configResolveChunks (get : List String → Except String (List CRec)) :
    List (List String) → Except String (List CRec)
  | [] => .ok []
  | c :: cs =>
      match get c with
      | .error e => .error e
      | .ok rs =>
          match configResolveChunks get cs with
          | .error e => .error e
          | .ok rest => .ok (rs ++ rest)

/-- Model of `ConfigSource.resources` (`c7n/query.py` lines 306-332):
the paginated discovered-resource index is abstracted into the
`resource_ids` input list; per-chunk identity resolution
(`self.get_resources(resource_set)`) is abstracted by `get`. -/
def ConfigSource_resources (get : List String → Except String (List CRec))
    (resource_ids : List String) : Except String (List CRec) :=
  configResolveChunks get (chunksOf 50 resource_ids)

/-- Fixture for C5: 51 discovered resource ids "0" .. "50", so chunking
by 50 yields one chunk of 50 ids and a second chunk holding only
"50". -/
def configIds51 : List String := (List.range 51).map (fun i => toString i)

/-- Fixture for C5: chunk resolution that raises for the chunk holding
id "50" (the second chunk) and succeeds for every other chunk. -/
def configGetC5 : List String → Except String (List CRec) :=
  fun c =>
    if c.contains "50" then .error "boom"
    else .ok (c.map (fun i => [("resourceId", i)]))

/-! ## Scalar augmentation (`_scalar_augment`, `c7n/query.py` lines 562-586) and rds-cluster tag augmentation (`_rds_cluster_tags`, `c7n/resources/rdscluster.py` lines 72-86) -/

/-- A semi-structured provider value: a plain string, an array, or an
object (dict). -/
inductive JVal where
  | str (s : String)
  | arr (l : List JVal)
  | obj (fields : List (String × JVal))

/-- Python truthiness of a provider value: empty strings and empty
containers are falsy. -/
def jTruthy : JVal → Bool
  | .str s => s != ""
  | .arr l => !l.isEmpty
  | .obj l => !l.isEmpty

/-- Faults of the augmentation path: the provider not-found fault (for
rds clusters, `DBClusterNotFoundFault`), a Python `TypeError` (indexing
or updating a non-dict), a `KeyError`, and any other provider error. -/
inductive AugErr where
  | notFound
  | typeError
  | keyError
  | other (code : String)
deriving DecidableEq

/-- Model of `v[k]` on a provider value. -/
def getKey (v : JVal) (k : String) : Except AugErr JVal :=
  match v with
  | .obj fs =>
      match fs.lookup k with
      | some x => .ok x
      | none => .error .keyError
  | _ => .error .typeError

/-- Replace-or-append assignment on an object field list. -/
def setPair (fs : List (String × JVal)) (k : String) (x : JVal) :
    List (String × JVal) :=
  if (fs.lookup k).isSome then
    fs.map (fun p => if p.1 = k then (k, x) else p)
  else fs ++ [(k, x)]

/-- Model of `v[k] = x` on a provider value. -/
def setKey (v : JVal) (k : String) (x : JVal) : Except AugErr JVal :=
  match v with
  | .obj fs => .ok (.obj (setPair fs k x))
  | _ => .error .typeError

/-- Model of `v.pop(k)` with no default: removes the key, raising
`KeyError` when the key is absent. -/
def popKey (v : JVal) (k : String) : Except AugErr JVal :=
  match v with
  | .obj fs =>
      match fs.lookup k with
      | some _ => .ok (.obj (fs.filter (fun p => p.1 != k)))
      | none => .error .keyError
  | _ => .error .typeError

/-- Model of `r.update(response)` on two objects. -/
def updateObj (r response : JVal) : Except AugErr JVal :=
  match r, response with
  | .obj rfields, .obj pfields =>
      .ok (.obj (pfields.foldl (fun acc p => setPair acc p.1 p.2) rfields))
  | _, _ => .error .typeError

/-- Model of one iteration of the `_scalar_augment` loop (`c7n/query.py`
lines 572-585): compute the call argument
(`param_key and r[param_key] or r`, with Python truthiness), issue the
detail call, project the response through the detail path when one is
declared (otherwise pop the `ResponseMetadata` key), and merge: with no
`param_key` the original record is stored under the identity field of
the response, which replaces the record; otherwise the response fields
are merged onto the record. -/
def scalar_augment_one (mid : String) (param_key : Option String)
    (detail_path : Option String) (op : JVal → Except AugErr JVal)
    (r : JVal) : Except AugErr JVal :=
  let argE : Except AugErr JVal :=
    match param_key with
    | some pk =>
        if pk ≠ "" then
          match getKey r pk with
          | .error e => .error e
          | .ok v => .ok (if jTruthy v then v else r)
        else .ok r
    | none => .ok r
  match argE with
  | .error e => .error e
  | .ok arg =>
      match op arg with
      | .error e => .error e
      | .ok response =>
          let projE : Except AugErr JVal :=
            match detail_path with
            | some dp =>
                if dp ≠ "" then getKey response dp
                else popKey response "ResponseMetadata"
            | none => popKey response "ResponseMetadata"
          match projE with
          | .error e => .error e
          | .ok projected =>
              match param_key with
              | none => setKey projected mid r
              | some _ => updateObj r projected

/-- Model of `_scalar_augment` on one chunk (`resource_set`): one detail
call per record, in order; any exception propagates and aborts the whole
chunk — the generic helper has no not-found handling of its own. -/
def _scalar_augment (mid : String) (param_key : Option String)
    (detail_path : Option String) (op : JVal → Except AugErr JVal) :
    List JVal → Except AugErr (List JVal)
  | [] => .ok []
  | r :: rs =>
      match scalar_augment_one mid param_key detail_path op r with
      | .error e => .error e
      | .ok x =>
          match _scalar_augment mid param_key detail_path op rs with
          | .error e => .error e
          | .ok rest => .ok (x :: rest)

/-- Model of the inner `process_tags` of `_rds_cluster_tags`
(`c7n/resources/rdscluster.py`): read the cluster id field, build the
arn with `generator`, issue the (retried) `list_tags_for_resource` call
(abstracted by `list_tags`), store its `TagList` under the record key
"Tags" and return the record; a `DBClusterNotFoundFault` raised inside
the `try` yields `None` for this record; any other exception
propagates. -/
def rds_process_tags (mid : String) (generator : String → String)
    (list_tags : String → Except AugErr JVal) (db : JVal) :
    Except AugErr (Option JVal) :=
  let attempt : Except AugErr JVal :=
    match getKey db mid with
    | .error e => .error e
    | .ok idv =>
        match idv with
        | .str i =>
            match list_tags (generator i) with
            | .error e => .error e
            | .ok resp =>
                match getKey resp "TagList" with
                | .error e => .error e
                | .ok tl => setKey db "Tags" tl
        | _ => .error .typeError
  match attempt with
  | .ok r => .ok (some r)
  | .error .notFound => .ok none
  | .error e => .error e

/-- Model of `_rds_cluster_tags`:
`list(filter(None, map(process_tags, dbs)))` — records resolved to
`None` (not-found at detail time) are dropped from the output; any other
exception propagates. -/
def _rds_cluster_tags (mid : String) (generator : String → String)
    (list_tags : String → Except AugErr JVal) :
    List JVal → Except AugErr (List JVal)
  | [] => .ok []
  | d :: ds =>
      match rds_process_tags mid generator list_tags d with
      | .error e => .error e
      | .ok x =>
          match _rds_cluster_tags mid generator list_tags ds with
          | .error e => .error e
          | .ok rest =>
              .ok (match x with | some r => r :: rest | none => rest)

/-- Fixture for the C6 counterexample: a detail call raising the
not-found fault exactly for the record whose id is "X". -/
def c6op : JVal → Except AugErr JVal :=
  fun v =>
    match v with
    | .str s =>
        if s = "X" then .error .notFound
        else .ok (.obj [("Detail", .obj [("D", .str "d")]),
                        ("ResponseMetadata", .obj [])])
    | _ => .ok (.obj [("Detail", .obj [("D", .str "d")]),
                      ("ResponseMetadata", .obj [])])

/-- Fixture for the C6 counterexample: three enumerated records, the
middle one ("X") vanished before detail time. -/
def c6set : List JVal :=
  [.obj [("Id", .str "A")], .obj [("Id", .str "X")], .obj [("Id", .str "B")]]

/-- Fixture for the C6 witness: `list_tags_for_resource` raising the
not-found fault for arn "x" and returning an empty `TagList`
otherwise. -/
def rdsListTagsC6 : String → Except AugErr JVal :=
  fun s =>
    if s = "x" then .error .notFound
    else .ok (.obj [("TagList", .arr [])])

/-- Fixture for the C6 witness: the per-record augmentation produced by
`rdsListTagsC6` — an empty tag list appended under "Tags". -/
def rdsAugC6 : JVal → JVal :=
  fun db =>
    match db with
    | .obj fs => .obj (fs ++ [("Tags", .arr [])])
    | x => x

/-! ## Theorems for claims C1 and C10 -/

/-- C1: for every invocation of `check_resource_limit` with selection
count `S` and population count `P`: (1) if the policy declares an
absolute `max_resources` limit `L` and `S > L`, it raises a
resource-limit error of kind "max-resources" carrying `L`, `S` and `P`;
(2) otherwise (absolute limit absent or not exceeded), if the policy
declares a `max_resources_percent` limit `Q` in (0, 100] and
`S > P * (Q/100)`, it raises kind "max-percent" carrying `Q`, `S` and
`P` — so when both limits are set either can trigger independently;
(3) when neither check fires the call returns normally; (4) in
particular when neither limit is set the call never raises. -/
theorem check_resource_limit_spec (p : CPolicy) (S P : ℕ) (L : ℤ) (Q : ℚ) :
    (p.max_resources = some L → (S : ℤ) > L →
      check_resource_limit p S P =
        .error ⟨p.name, "max-resources", (L : ℚ), S, P⟩) ∧
    ((match p.max_resources with
      | some l => (S : ℤ) ≤ l
      | none => True) →
      p.max_resources_percent = some Q → 0 < Q → Q ≤ 100 →
      (P : ℚ) * (Q / 100) < (S : ℚ) →
      check_resource_limit p S P =
        .error ⟨p.name, "max-percent", Q, S, P⟩) ∧
    ((match p.max_resources with
      | some l => (S : ℤ) ≤ l
      | none => True) →
      (match p.max_resources_percent with
       | some q => q ≠ 0 → ¬((P : ℚ) * (q / 100) < (S : ℚ))
       | none => True) →
      check_resource_limit p S P = .ok true) ∧
    (p.max_resources = none → p.max_resources_percent = none →
      check_resource_limit p S P = .ok true) := by
  refine ⟨?_, ?_, ?_, ?_⟩
  · intro hL hS
    simp only [check_resource_limit, hL, if_pos hS]
  · intro habs hQ hpos _hle hlt
    cases hmr : p.max_resources with
    | some l =>
        rw [hmr] at habs
        simp only [check_resource_limit, hmr, if_neg (not_lt.mpr habs),
          check_percent_limit, hQ, if_neg (ne_of_gt hpos), if_pos hlt]
    | none =>
        simp only [check_resource_limit, hmr, check_percent_limit, hQ,
          if_neg (ne_of_gt hpos), if_pos hlt]
  · intro habs hpct
    have hper : check_percent_limit p S P = .ok true := by
      cases hmp : p.max_resources_percent with
      | some q =>
          rw [hmp] at hpct
          by_cases hq : q = 0
          · simp only [check_percent_limit, hmp, if_pos hq]
          · simp only [check_percent_limit, hmp, if_neg hq,
              if_neg (hpct hq)]
      | none => simp only [check_percent_limit, hmp]
    cases hmr : p.max_resources with
    | some l =>
        rw [hmr] at habs
        simp only [check_resource_limit, hmr, if_neg (not_lt.mpr habs), hper]
    | none => simp only [check_resource_limit, hmr, hper]
  · intro hmr hmp
    simp only [check_resource_limit, hmr, check_percent_limit, hmp]

/-- Witness for C1, using the test vectors of the spec: population 100
and selection 11 with an absolute limit of 10 raises "max-resources";
the same counts with a percent limit of 10 raise "max-percent"; selection
10 under the same percent limit does not raise. -/
theorem check_resource_limit_spec_witness :
    check_resource_limit ⟨"p", some 10, none⟩ 11 100 =
      .error ⟨"p", "max-resources", 10, 11, 100⟩ ∧
    check_resource_limit ⟨"p", none, some 10⟩ 11 100 =
      .error ⟨"p", "max-percent", 10, 11, 100⟩ ∧
    check_resource_limit ⟨"p", none, some 10⟩ 10 100 = .ok true :=
  ⟨(check_resource_limit_spec ⟨"p", some 10, none⟩ 11 100 10 0).1 rfl (by decide),
   (check_resource_limit_spec ⟨"p", none, some 10⟩ 11 100 0 10).2.1 trivial rfl
     (by norm_num) (by norm_num) (by norm_num),
   (check_resource_limit_spec ⟨"p", none, some 10⟩ 10 100 0 10).2.2.1 trivial
     (fun _ => by norm_num)⟩

/-- C10: a configured `max_resources_percent` of `0` behaves exactly as
if no percentage limit were set: whenever the absolute limit does not
trigger, `check_resource_limit` returns normally even for a non-empty
selection, because `elif p.max_resources_percent:` tests the value for
truthiness (and `0` is falsy) before the comparison is made. -/
theorem check_resource_limit_percent_zero (p : CPolicy) (S P : ℕ)
    (hz : p.max_resources_percent = some 0)
    (habs : match p.max_resources with
            | some l => (S : ℤ) ≤ l
            | none => True) :
    check_resource_limit p S P = .ok true := by
  have hper : check_percent_limit p S P = .ok true := by
    simp only [check_percent_limit, hz]
    norm_num
  cases hmr : p.max_resources with
  | some l =>
      rw [hmr] at habs
      simp only [check_resource_limit, hmr, if_neg (not_lt.mpr habs), hper]
  | none => simp only [check_resource_limit, hmr, hper]

/-- Witness for C10: percent limit 0, no absolute limit, selection 5 out
of population 100 (so `selection > population * 0` holds) — no raise. -/
theorem check_resource_limit_percent_zero_witness :
    check_resource_limit ⟨"p", none, some 0⟩ 5 100 = .ok true :=
  check_resource_limit_percent_zero ⟨"p", none, some 0⟩ 5 100 rfl trivial

/-! ## Theorem for claim C3 -/

/-- C3: for every call of `universal_retry`: (1) a response with no
per-item failure map entry is returned immediately, with exactly one call
and no sleep; (2) if the first response fails only `arnA` with the
throttling code and the second call — reissued for `[arnA]` only, the
shrunken work list — succeeds, the second response is returned with
exactly two calls and exactly one sleep between them; (3) if any failed
item has a non-throttling error code, the aggregate error naming those
items is raised immediately, with no further call and no sleep; (4) if
every attempt fails with throttling only, the aggregate throttling error
naming the still-failing arns is raised after the attempt ceiling of 6
calls (5 sleeps). -/
theorem universal_retry_spec (method : ℕ → List String → TagResponse)
    (arns : List String) (arnA : String) (r1 : TagResponse) :
    ((method 0 arns).failedResourcesMap = [] →
      universal_retry method arns = (.ok (method 0 arns), 1, 0)) ∧
    ((method 0 arns).failedResourcesMap = [(arnA, "ThrottlingException")] →
      method 1 [arnA] = r1 → r1.failedResourcesMap = [] →
      universal_retry method arns = (.ok r1, 2, 1)) ∧
    ((method 0 arns).failedResourcesMap ≠ [] →
      errorsOf (method 0 arns).failedResourcesMap ≠ [] →
      universal_retry method arns =
        (.tagErrors (errorsOf (method 0 arns).failedResourcesMap), 1, 0)) ∧
    ((∀ i a, (method i a).failedResourcesMap ≠ []) →
      (∀ i a, errorsOf (method i a).failedResourcesMap = []) →
      universal_retry method arns =
        (.throttled (throttleChain method arns 6), 6, 5)) := by
  refine ⟨?_, ?_, ?_, ?_⟩
  · intro h0
    simp [universal_retry, universal_retry_max_attempts, universal_retry_aux, h0]
  · intro h0 h1 hr1
    simp [universal_retry, universal_retry_max_attempts, universal_retry_aux,
      h0, throttlesOf, errorsOf, h1, hr1]
  · intro h0 herr
    simp only [universal_retry, universal_retry_max_attempts, universal_retry_aux,
      if_neg h0, if_pos herr]
  · intro H1 H2
    simp [universal_retry, universal_retry_max_attempts, universal_retry_aux,
      throttleChain, H1, H2]

/-- Witness for C3, exercising all four parts of `universal_retry_spec`
on the fixture methods: immediate success; one throttle of `arnA`
followed by success for `[arnA]` (two calls, one sleep); an immediate
aggregate error on a non-throttling item failure; and the aggregate
throttling error after 6 calls and 5 sleeps. -/
theorem universal_retry_spec_witness :
    universal_retry urMethodOk ["arnA"] =
      (.ok ⟨[], [("TagResources", "ok")]⟩, 1, 0) ∧
    universal_retry urMethodThrottleOnce ["arnA"] =
      (.ok ⟨[], [("TagResources", "ok")]⟩, 2, 1) ∧
    universal_retry urMethodErrors ["arnB"] =
      (.tagErrors [("arnB", "AccessDenied")], 1, 0) ∧
    universal_retry urMethodAlwaysThrottle ["arnC"] =
      (.throttled (throttleChain urMethodAlwaysThrottle ["arnC"] 6), 6, 5) :=
  ⟨(universal_retry_spec urMethodOk ["arnA"] "arnA" ⟨[], []⟩).1 rfl,
   (universal_retry_spec urMethodThrottleOnce ["arnA"] "arnA"
      ⟨[], [("TagResources", "ok")]⟩).2.1 rfl rfl rfl,
   (universal_retry_spec urMethodErrors ["arnB"] "arnB" ⟨[], []⟩).2.2.1
      (by decide) (by decide),
   (universal_retry_spec urMethodAlwaysThrottle ["arnC"] "arnC" ⟨[], []⟩).2.2.2
      (by intro i a; simp [urMethodAlwaysThrottle])
      (by intro i a; simp [urMethodAlwaysThrottle, errorsOf])⟩

/-! ## Association-list lemmas (dict-update semantics) -/

/-- Keys absent from the updating dict keep their original binding after
filtering out the keys the update will rewrite. -/
theorem filter_keys_lookup {β : Type} (params : List (String × β))
    (keys : List String) (k : String) (h : k ∉ keys) :
    (params.filter (fun p => !(keys.contains p.1))).lookup k =
      params.lookup k := by
  induction params with
  | nil => simp
  | cons p t ih =>
      obtain ⟨a, b⟩ := p
      by_cases hka : k = a
      · subst hka
        simp [List.filter_cons, List.contains, h, List.lookup_cons]
      · by_cases ha : a ∈ keys
        · simpa [List.filter_cons, List.contains, ha, List.lookup_cons,
            beq_eq_false_iff_ne.mpr hka] using ih
        · simpa [List.filter_cons, List.contains, ha, List.lookup_cons,
            beq_eq_false_iff_ne.mpr hka] using ih

/-- Lookup through `dictUpdate` for a key bound by the updating dict:
the updating dict wins (Python `dict.update` semantics). -/
theorem dictUpdate_lookup_some (params extra : Params) (k : String)
    (v : ParamVal) (hx : extra.lookup k = some v) :
    (dictUpdate params extra).lookup k = some v := by
  have hmem : k ∈ extra.map Prod.fst := by
    have hs : (extra.lookup k).isSome := by rw [hx]; rfl
    obtain ⟨p, hp, hkp⟩ := List.lookup_isSome_iff.mp hs
    exact List.mem_map.mpr ⟨p, hp, (eq_of_beq hkp).symm⟩
  have hfil : (params.filter
      (fun p => !((extra.map Prod.fst).contains p.1))).lookup k = none := by
    rw [List.lookup_eq_none_iff]
    intro p hp
    have hpk : p.1 ∉ extra.map Prod.fst := by
      have := (List.mem_filter.mp hp).2
      simpa [List.contains] using this
    cases hke : (k == p.1) with
    | true => exact absurd (eq_of_beq hke ▸ hmem) hpk
    | false => simp [bne, hke]
  rw [dictUpdate, List.lookup_append, hfil, Option.none_or, hx]

/-- Lookup through `dictUpdate` for a key not bound by the updating
dict: the original binding survives. -/
theorem dictUpdate_lookup_none (params extra : Params) (k : String)
    (hx : extra.lookup k = none) :
    (dictUpdate params extra).lookup k = params.lookup k := by
  have hmem : k ∉ extra.map Prod.fst := by
    intro hk
    obtain ⟨p, hp, hpk⟩ := List.mem_map.mp hk
    have := List.lookup_eq_none_iff.mp hx p hp
    simp [bne, hpk] at this
  rw [dictUpdate, List.lookup_append, filter_keys_lookup params _ k hmem]
  cases params.lookup k <;> simp [hx]

/-- The parameter dict dispatched by `ResourceQuery_filter` is exactly
the caller params updated by the descriptor extra args. -/
theorem resourceQuery_filter_dispatched (m : MDescr)
    (client : Params → List RQRec) (params : Params) :
    (ResourceQuery_filter m client params).1 =
      dictUpdate params m.enum_extra_args := by
  by_cases he : m.enum_extra_args = []
  · simp [ResourceQuery_filter, he, dictUpdate]
  · simp [ResourceQuery_filter, he]

/-- Soundness of the record-path client-side filter: every record in an
`.ok` output of `filterById` carries an identity-field value from the
identity set. -/
theorem filterById_mem (k : String) (ids : List String) :
    ∀ (rs out : List RQRec) (r : RQRec), filterById k ids rs = .ok out →
      r ∈ out → ∃ v, getIdField r k = .ok v ∧ v ∈ ids := by
  intro rs
  induction rs with
  | nil =>
      intro out r h hr
      simp only [filterById, Except.ok.injEq] at h
      subst h
      simp at hr
  | cons x t ih =>
      intro out r h hr
      simp only [filterById] at h
      cases hx : getIdField x k with
      | error e => rw [hx] at h; simp at h
      | ok v =>
          rw [hx] at h
          cases ht : filterById k ids t with
          | error e => rw [ht] at h; simp at h
          | ok rest =>
              rw [ht] at h
              simp only [Except.ok.injEq] at h
              subst h
              by_cases hc : v ∈ ids
              · rw [if_pos (by simp [List.contains, hc])] at hr
                rcases List.mem_cons.mp hr with hrx | hrr
                · exact ⟨v, hrx ▸ hx, hc⟩
                · exact ih rest r ht hrr
              · rw [if_neg (by simp [List.contains, hc])] at hr
                exact ih rest r ht hr

/-! ## Theorems for claim C4 -/

/-- C4: in the client-side filtering path of `ResourceQuery.get` (no
server-side filter name), every element of a successfully returned
sequence comes from the input identity set: a plain identifier string is
itself a member of `identities`, and a structured record carries an
identity-field value that is a member of `identities`.  The returned
sequence never contains records absent from the input identity set. -/
theorem resourceQuery_get_client_filter_subset (m : MDescr)
    (client : Params → List RQRec) (identities : List String)
    (out : List RQRec) (r : RQRec)
    (hfn : m.filter_name = none)
    (hok : (ResourceQuery_get m client identities).2 = .ok out)
    (hr : r ∈ out) :
    memberOfIdentities identities m.id r := by
  simp only [ResourceQuery_get, hfn] at hok
  cases hall : (ResourceQuery_filter m client []).2.all isRawStr with
  | true =>
      simp only [hall, if_true, Except.ok.injEq] at hok
      subst hok
      obtain ⟨hmem, hpred⟩ := List.mem_filter.mp hr
      cases r with
      | rawId s =>
          simp only [memberOfIdentities]
          simpa [List.contains] using hpred
      | record fs => simp at hpred
  | false =>
      simp only [hall, Bool.false_eq_true, if_false] at hok
      obtain ⟨v, hgv, hcv⟩ :=
        filterById_mem m.id identities (ResourceQuery_filter m client []).2
          out r hok hr
      cases r with
      | rawId s => simp [getIdField] at hgv
      | record fs =>
          refine ⟨v, ?_, hcv⟩
          cases hl : fs.lookup m.id with
          | some w => simp only [getIdField, hl, Except.ok.injEq] at hgv; rw [hgv]
          | none => simp [getIdField, hl] at hgv

/-- Witness for C4: a descriptor with no filter name, an enumeration
returning two structured records, and the identity set containing only
one of them — the theorem applies to the member of the output, whose
identity field "a" lies in the requested set. -/
theorem resourceQuery_get_client_filter_subset_witness :
    memberOfIdentities ["a", "b"] mC4.id (.record [("Id", "a")]) :=
  resourceQuery_get_client_filter_subset mC4 clientC4 ["a", "b"]
    [.record [("Id", "a")]] (.record [("Id", "a")]) rfl rfl
    (by simp)

/-! ## Theorems for claim C7 -/

/-- Counterexample for C7 as stated: with caller params binding "K" to
"caller" and descriptor extra args binding "K" to "descr", the value
actually dispatched to the enumeration call for "K" is the descriptor
value, not the caller value — `params.update(extra_args)` lets the
descriptor extra args clobber caller-supplied keys on collision. -/
theorem resourceQuery_filter_caller_precedence_cex :
    (ResourceQuery_filter mC7 emptyClient
      [("K", ParamVal.str "caller")]).1.lookup "K" =
        some (ParamVal.str "descr") ∧
    ParamVal.str "descr" ≠ ParamVal.str "caller" :=
  ⟨rfl, by decide⟩

/-- C7 amended: in `ResourceQuery.filter`, descriptor static extra args
are merged into the call parameters with the descriptor taking
precedence: for every key bound by the extra args, the dispatched value
is the descriptor value (even when the caller supplied the same key);
keys not bound by the extra args retain their caller-supplied value. -/
theorem resourceQuery_filter_extra_args_precedence (m : MDescr)
    (client : Params → List RQRec) (params : Params) (k : String)
    (v : ParamVal) :
    (m.enum_extra_args.lookup k = some v →
      (ResourceQuery_filter m client params).1.lookup k = some v) ∧
    (m.enum_extra_args.lookup k = none →
      (ResourceQuery_filter m client params).1.lookup k =
        params.lookup k) := by
  constructor
  · intro hx
    rw [resourceQuery_filter_dispatched]
    exact dictUpdate_lookup_some params m.enum_extra_args k v hx
  · intro hx
    rw [resourceQuery_filter_dispatched]
    exact dictUpdate_lookup_none params m.enum_extra_args k hx

/-- Witness for the amended C7: on the concrete descriptor `mC7`, the
colliding key "K" is dispatched with the extra-args value, and the
non-colliding key "J" keeps its caller value. -/
theorem resourceQuery_filter_extra_args_precedence_witness :
    (ResourceQuery_filter mC7 emptyClient
      [("K", ParamVal.str "caller"), ("J", ParamVal.str "x")]).1.lookup "K" =
        some (ParamVal.str "descr") ∧
    (ResourceQuery_filter mC7 emptyClient
      [("K", ParamVal.str "caller"), ("J", ParamVal.str "x")]).1.lookup "J" =
        [("K", ParamVal.str "caller"), ("J", ParamVal.str "x")].lookup "J" :=
  ⟨(resourceQuery_filter_extra_args_precedence mC7 emptyClient
      [("K", ParamVal.str "caller"), ("J", ParamVal.str "x")] "K"
      (ParamVal.str "descr")).1 rfl,
   (resourceQuery_filter_extra_args_precedence mC7 emptyClient
      [("K", ParamVal.str "caller"), ("J", ParamVal.str "x")] "J"
      (ParamVal.str "descr")).2 rfl⟩

/-! ## Theorems for claim C9 -/

/-- C9: in `ResourceQuery.get` with a server-side filter: a scalar
filter with anything but exactly one identity fails the assertion with
no enumeration call dispatched; a scalar filter with exactly one
identity dispatches a single enumeration call whose filter parameter is
that identity; a list filter dispatches a single enumeration call whose
filter parameter carries all the identities.  (The extra-args hypothesis
rules out the descriptor statically rebinding the filter key itself.) -/
theorem resourceQuery_get_server_filter_spec (m : MDescr)
    (client : Params → List RQRec) (identities : List String)
    (fn i : String) :
    (m.filter_name = some fn → m.filter_type = "scalar" →
      identities.length ≠ 1 →
      ResourceQuery_get m client identities = ([], .error .assertFail)) ∧
    (m.filter_name = some fn → m.filter_type = "scalar" →
      identities = [i] → m.enum_extra_args.lookup fn = none →
      (ResourceQuery_get m client identities).1.length = 1 ∧
      ((ResourceQuery_get m client identities).1.headD []).lookup fn =
        some (ParamVal.str i)) ∧
    (m.filter_name = some fn → m.filter_type = "list" →
      m.enum_extra_args.lookup fn = none →
      (ResourceQuery_get m client identities).1.length = 1 ∧
      ((ResourceQuery_get m client identities).1.headD []).lookup fn =
        some (ParamVal.strList identities)) := by
  refine ⟨?_, ?_, ?_⟩
  · intro hfn hty hlen
    simp only [ResourceQuery_get, hfn, hty, if_true]
    rw [if_neg (by decide : ¬("scalar" : String) = "list"), if_neg hlen]
  · intro hfn hty hids hx
    subst hids
    simp only [ResourceQuery_get, hfn, hty, if_true]
    rw [if_neg (by decide : ¬("scalar" : String) = "list"),
      if_pos (show (([i] : List String)).length = 1 from rfl)]
    simp only [List.headD_cons]
    refine ⟨rfl, ?_⟩
    rw [resourceQuery_filter_dispatched, dictUpdate_lookup_none _ _ _ hx]
    simp [List.lookup_cons]
  · intro hfn hty hx
    simp only [ResourceQuery_get, hfn, hty, if_true]
    simp only [List.headD_cons]
    refine ⟨rfl, ?_⟩
    rw [resourceQuery_filter_dispatched, dictUpdate_lookup_none _ _ _ hx]
    simp [List.lookup_cons]

/-- Witness for C9: on the scalar-filter descriptor `mC9s`, a
two-identity request fails the assertion with no dispatched call, a
one-identity request dispatches one call with the filter parameter set
to it, and on the list-filter descriptor `mC9l` a two-identity request
dispatches one call carrying both. -/
theorem resourceQuery_get_server_filter_spec_witness :
    ResourceQuery_get mC9s emptyClient ["a", "b"] =
      ([], .error .assertFail) ∧
    ((ResourceQuery_get mC9s emptyClient ["a"]).1.length = 1 ∧
      ((ResourceQuery_get mC9s emptyClient ["a"]).1.headD []).lookup "F" =
        some (ParamVal.str "a")) ∧
    ((ResourceQuery_get mC9l emptyClient ["a", "b"]).1.length = 1 ∧
      ((ResourceQuery_get mC9l emptyClient ["a", "b"]).1.headD []).lookup "F" =
        some (ParamVal.strList ["a", "b"])) :=
  ⟨(resourceQuery_get_server_filter_spec mC9s emptyClient ["a", "b"] "F" "a").1
      rfl rfl (by decide),
   (resourceQuery_get_server_filter_spec mC9s emptyClient ["a"] "F" "a").2.1
      rfl rfl rfl rfl,
   (resourceQuery_get_server_filter_spec mC9l emptyClient ["a", "b"] "F" "a").2.2
      rfl rfl rfl⟩

/-! ## Theorems for claim C8 -/

/-- C8: when the caller did not supply the parent-correlation parameter
(neither directly nor via descriptor extra args) and the parent manager
yields zero parent identities, `ChildResourceQuery.filter` returns the
empty sequence and dispatches zero enumeration calls. -/
theorem childResourceQuery_filter_zero_parents (m : MDescr)
    (capture_parent_id : Bool) (client : Params → List CRec)
    (params : Params)
    (hp : params.lookup m.parent_spec.parent_key = none)
    (hx : m.enum_extra_args.lookup m.parent_spec.parent_key = none) :
    ChildResourceQuery_filter m capture_parent_id client [] params =
      ([], []) := by
  have hmerged : (if m.enum_extra_args = [] then params
      else dictUpdate params m.enum_extra_args).lookup
        m.parent_spec.parent_key = none := by
    by_cases he : m.enum_extra_args = []
    · simp [he, hp]
    · rw [if_neg he, dictUpdate_lookup_none _ _ _ hx]; exact hp
  simp [ChildResourceQuery_filter, hmerged]

/-- Witness for C8: concrete child descriptor, caller params without the
parent key, no parent identities — empty result and no dispatched
calls. -/
theorem childResourceQuery_filter_zero_parents_witness :
    ChildResourceQuery_filter mC8 false emptyCRecClient []
      [("Q", ParamVal.str "x")] = ([], []) :=
  childResourceQuery_filter_zero_parents mC8 false emptyCRecClient
    [("Q", ParamVal.str "x")] rfl rfl

/-! ## Theorems for claim C2 -/

/-- C2: every cache write of `QueryResourceManager.resources` stores the
fully augmented, pre-filter collection — the value saved is always the
augmentation of the whole enumerated collection; on a cache miss the
events run in the order source enumeration, augmentation, cache save,
filter evaluation (so a cache entry is never written with
partially-augmented data); and on a cache hit the only event is the
filter evaluation (no re-enumeration, no re-augmentation, no save) and
the cached collection is used directly as the population count. -/
theorem qrm_resources_cache_spec (env : MgrEnv) (query : Option Params)
    (v : List CRec) (rs : List CRec) :
    (MEvent.cacheSave v ∈ (QRM_resources env query).events →
      v = env.augmentFn (env.sourceFn (query.getD []))) ∧
    ((if env.cacheLoaded then env.cacheGet else none) = none →
      (QRM_resources env query).events =
        [MEvent.sourceFetch (query.getD []), MEvent.augmentAll,
         MEvent.cacheSave (env.augmentFn (env.sourceFn (query.getD []))),
         MEvent.filterEval]) ∧
    (env.cacheLoaded = true → env.cacheGet = some rs →
      (QRM_resources env query).events = [MEvent.filterEval] ∧
      (QRM_resources env query).population = rs.length) := by
  have hb : (if env.cacheLoaded then env.cacheGet else none) = none →
      (QRM_resources env query).events =
        [MEvent.sourceFetch (query.getD []), MEvent.augmentAll,
         MEvent.cacheSave (env.augmentFn (env.sourceFn (query.getD []))),
         MEvent.filterEval] := by
    intro hmiss
    simp [QRM_resources, hmiss, QRM_finish]
  have hc : ∀ rs0 : List CRec,
      (if env.cacheLoaded then env.cacheGet else none) = some rs0 →
      (QRM_resources env query).events = [MEvent.filterEval] ∧
      (QRM_resources env query).population = rs0.length := by
    intro rs0 hhit
    simp [QRM_resources, hhit, QRM_finish]
  refine ⟨?_, hb, ?_⟩
  · intro hv
    rcases hcc : (if env.cacheLoaded then env.cacheGet else none) with _ | rs0
    · rw [hb hcc] at hv
      simp at hv
      exact hv
    · rw [(hc rs0 hcc).1] at hv
      simp at hv
  · intro hcl hcv
    exact hc rs (by simp [hcl, hcv])

/-- Witness for C2: on the concrete miss environment the event order is
enumerate, augment, save, filter; on the concrete hit environment the
only event is the filter evaluation and the population is the cached
length 2. -/
theorem qrm_resources_cache_spec_witness :
    (QRM_resources envMiss none).events =
      [MEvent.sourceFetch [], MEvent.augmentAll,
       MEvent.cacheSave (envMiss.augmentFn (envMiss.sourceFn [])),
       MEvent.filterEval] ∧
    ((QRM_resources envHit none).events = [MEvent.filterEval] ∧
      (QRM_resources envHit none).population =
        [[("Id", "a")], [("Id", "b")]].length) :=
  ⟨(qrm_resources_cache_spec envMiss none [] []).2.1 rfl,
   (qrm_resources_cache_spec envHit none [] [[("Id", "a")], [("Id", "b")]]).2.2
      rfl rfl⟩

/-! ## Theorem for claim C5 -/

/-- C5 (code bug): identity resolution in `ConfigSource.resources` does
fan out over chunks of up to 50 ids (here 51 ids make exactly two
chunks, and the first chunk alone resolves fine), but a chunk whose
resolution raises does abort the whole batch: after logging, the loop
still calls `f.result()`, which re-raises, so the returned collection is
lost and the other chunks' results are not included — the run ends with
the error instead of a partial result. -/
theorem configSource_chunk_failure_aborts :
    ConfigSource_resources configGetC5 configIds51 = .error "boom" ∧
    (chunksOf 50 configIds51).length = 2 ∧
    (configGetC5 ((chunksOf 50 configIds51).headD [])).toBool = true ∧
    configGetC5 ((chunksOf 50 configIds51).getD 1 []) = .error "boom" := by
  refine ⟨?_, ?_, ?_, ?_⟩ <;> rfl

/-! ## Theorems for claim C6 -/

/-- Counterexample for C6 as stated of the generic `_scalar_augment`:
with three enumerated records and a detail call raising the not-found
fault exactly for the middle record "X", the whole chunk fails with the
fault — the generic scalar augmentation has no not-found handling, so
the output is not "every input record except X" and an error is raised
for the batch. -/
theorem scalar_augment_not_found_aborts_cex :
    _scalar_augment "Id" (some "Id") (some "Detail") c6op c6set =
      .error .notFound := rfl

/-- C6 amended: in the rds-cluster scalar tag augmentation
(`_rds_cluster_tags`), a not-found fault during the detail call for
exactly one record `X` drops exactly `X` from the augmented output: no
error is raised for the batch, every other record is augmented exactly
as specified by its own detail result, and the result equals the
augmentation of the input with `X` absent. -/
theorem rds_cluster_tags_not_found_drops (mid : String)
    (generator : String → String) (list_tags : String → Except AugErr JVal)
    (pre post : List JVal) (X : JVal) (xid : String) (A : JVal → JVal)
    (hid : getKey X mid = .ok (.str xid))
    (hnf : list_tags (generator xid) = .error .notFound)
    (hok : ∀ db ∈ pre ++ post,
      rds_process_tags mid generator list_tags db = .ok (some (A db))) :
    _rds_cluster_tags mid generator list_tags (pre ++ X :: post) =
      .ok ((pre ++ post).map A) ∧
    _rds_cluster_tags mid generator list_tags (pre ++ X :: post) =
      _rds_cluster_tags mid generator list_tags (pre ++ post) := by
  have hX : rds_process_tags mid generator list_tags X = .ok none := by
    simp only [rds_process_tags, hid, hnf]
  have key : ∀ l : List JVal,
      (∀ db ∈ l, rds_process_tags mid generator list_tags db =
        .ok (some (A db))) →
      _rds_cluster_tags mid generator list_tags l = .ok (l.map A) := by
    intro l
    induction l with
    | nil => intro _; rfl
    | cons d ds ih =>
        intro hl
        have hd := hl d (by simp)
        have hds := ih (fun db hdb => hl db (by simp [hdb]))
        simp only [_rds_cluster_tags, hd, hds, List.map_cons]
  have main : ∀ pre2 : List JVal,
      (∀ db ∈ pre2 ++ post, rds_process_tags mid generator list_tags db =
        .ok (some (A db))) →
      _rds_cluster_tags mid generator list_tags (pre2 ++ X :: post) =
        .ok ((pre2 ++ post).map A) := by
    intro pre2
    induction pre2 with
    | nil =>
        intro h2
        have hpost := key post (fun db hdb => h2 db (by simp [hdb]))
        simp only [List.nil_append, _rds_cluster_tags, hX, hpost]
    | cons d ps ih =>
        intro h2
        have hd := h2 d (by simp)
        have hrest := ih (fun db hdb => h2 db (by
          rcases List.mem_append.mp hdb with hdb | hdb
          · exact List.mem_append_left _ (List.mem_cons_of_mem _ hdb)
          · exact List.mem_append_right _ hdb))
        simp only [List.cons_append, _rds_cluster_tags, List.append_eq, hd,
          hrest, List.map_cons]
  exact ⟨main pre hok, by rw [main pre hok, key (pre ++ post) hok]⟩

/-- Witness for the amended C6: three concrete cluster records where the
middle record's arn "x" raises the not-found fault; the output is the
augmentation of the other two records, in order, with no batch error. -/
theorem rds_cluster_tags_not_found_drops_witness :
    _rds_cluster_tags "Id" (fun s => s) rdsListTagsC6
      ([JVal.obj [("Id", JVal.str "a")]] ++ JVal.obj [("Id", JVal.str "x")] ::
        [JVal.obj [("Id", JVal.str "b")]]) =
      .ok (([JVal.obj [("Id", JVal.str "a")]] ++
        [JVal.obj [("Id", JVal.str "b")]]).map rdsAugC6) :=
  (rds_cluster_tags_not_found_drops "Id" (fun s => s) rdsListTagsC6
    [JVal.obj [("Id", JVal.str "a")]] [JVal.obj [("Id", JVal.str "b")]]
    (JVal.obj [("Id", JVal.str "x")]) "x" rdsAugC6 rfl rfl
    (by
      intro db hdb
      simp at hdb
      rcases hdb with rfl | rfl <;> rfl)).1
